import Mathlib

/-!
Shallow embedding of src/backend/server.py (SentinelProxy backend) and
verification of its specified properties.

Modelling conventions:
- Python values that can appear in a parsed JSON body are modelled by `PyVal`
  (strings, integers, booleans); `dict.get` returning `None` for a missing or
  null field is modelled by `Option PyVal` being `none`.
- The filesystem state seen by `load_server_config` is modelled by `FsState`:
  the file is absent, the call to open raises, or the file yields a list of
  lines and then either ends normally or raises mid-read (the list holds
  exactly the lines yielded before the failure).
- The generative-AI client is a parameter `adapter : String → Except String String`,
  an opaque service that either returns a completion text or raises a
  provider error.
- Exceptions escaping the route handler are modelled by `HandlerResult.raised`.
-/

namespace SentinelProxy

/-- Values a JSON field can hold after Flask parses the body. -/
inductive PyVal where
  | str (s : String)
  | int (n : Int)
  | bool (b : Bool)
deriving Repr, DecidableEq

/-- Python truthiness of a value, as used by the `if not x` checks. -/
def PyVal.truthy : PyVal → Bool
  | .str s => s ≠ ""
  | .int n => n ≠ 0
  | .bool b => b

/-- Truthiness of `data.get(key)`: a missing or null field is falsy. -/
def pyGetTruthy : Option PyVal → Bool
  | Option.none => false
  | some v => v.truthy

/-- Python str() of a value, as performed by f-string interpolation. -/
def PyVal.toStr : PyVal → String
  | .str s => s
  | .int n => toString n
  | .bool b => if b then "True" else "False"

/-- Python str() of a `dict.get` result (the handler only formats truthy values,
so the `None` case is never reached on the success path). -/
def pyStrOfGet : Option PyVal → String
  | Option.none => "None"
  | some v => v.toStr

/-! Config loader (`load_server_config`, server.py lines 23-43). -/

/-- The three-field configuration dictionary built by `load_server_config`.
The dictionary key `X-Auth-Token` is the field `xAuthToken` here. -/
structure ServerConfig where
  backend_ip : String
  port : String
  xAuthToken : String
deriving Repr, DecidableEq

/-- The hard-coded defaults from line 24 of server.py. -/
def defaultConfig : ServerConfig :=
  { backend_ip := "192.168.1.1", port := "3107", xAuthToken := "default" }

/-- Characters removed by Python str.strip() with no argument. -/
def pyIsSpace (c : Char) : Bool :=
  c = ' ' || c = '\t' || c = '\n' || c = '\r' || c = '\x0b' || c = '\x0c'

/-- Python str.strip(): remove whitespace from both ends. -/
def pyStrip (s : String) : String :=
  String.mk (((s.data.dropWhile pyIsSpace).reverse.dropWhile pyIsSpace).reverse)

/-- Split a character list at the first colon, mirroring str.split with a colon
separator and maxsplit one; returns none when no colon occurs. -/
def splitFirstColonAux : List Char → Option (List Char × List Char)
  | [] => Option.none
  | c :: cs =>
      if c = ':' then some ([], cs)
      else
        match splitFirstColonAux cs with
        | some (k, v) => some (c :: k, v)
        | Option.none => Option.none

/-- Split a string at the first colon. -/
def splitFirstColon (s : String) : Option (String × String) :=
  (splitFirstColonAux s.data).map (fun p => (String.mk p.1, String.mk p.2))

/-- One iteration of the read loop of `load_server_config` (lines 31-39):
if the line contains a colon, the whole line is stripped, split at the first
colon into key and value, and the value (stripped) is assigned when the key
(taken as produced by the split, not stripped again) is one of the three
recognized names. The colon test on the raw line and on the stripped line
agree because stripping removes only whitespace. -/
def processLine (cfg : ServerConfig) (line : String) : ServerConfig :=
  if line.data.contains ':' then
    match splitFirstColon (pyStrip line) with
    | some (key, value) =>
        if key = "backend_ip" then { cfg with backend_ip := pyStrip value }
        else if key = "port" then { cfg with port := pyStrip value }
        else if key = "X-Auth-Token" then { cfg with xAuthToken := pyStrip value }
        else cfg
    | Option.none => cfg
  else cfg

/-- Filesystem state seen by one call to `load_server_config`. -/
inductive FsState where
  | noFile
  | failOpen
  | lines (ls : List String) (failDuringRead : Bool)
deriving Repr, DecidableEq

/-- Log levels emitted by the loader. -/
inductive LogLevel where
  | warning
  | info
  | error
deriving Repr, DecidableEq

/-- Embedding of `load_server_config` (lines 23-43). The local dictionary
starts at the defaults; each yielded line updates it in place; the except
block catches any exception and falls through to return the dictionary in
whatever state it reached. -/
def load_server_config (fs : FsState) : ServerConfig × List LogLevel :=
  match fs with
  | .noFile => (defaultConfig, [LogLevel.warning])
  | .failOpen => (defaultConfig, [LogLevel.error])
  | .lines ls failDuringRead =>
      let cfg := ls.foldl processLine defaultConfig
      if failDuringRead then (cfg, [LogLevel.error])
      else (cfg, [LogLevel.info])

/-! HTTP route handler (`handlePacket`, server.py lines 63-76) and the AI
adapter wrapper (`handleAIRequest`, lines 57-61). -/

/-- The five fields the handler reads from the JSON body with `data.get`. -/
structure PacketReq where
  packet_size : Option PyVal
  packet_rate : Option PyVal
  protocol_type : Option PyVal
  connection_state : Option PyVal
  payload_pattern : Option PyVal
deriving Repr, DecidableEq

/-- The JSON envelope returned to the caller. -/
structure Envelope where
  status : String
  message : String
deriving Repr, DecidableEq

/-- The fixed validation-error envelope from line 72. -/
def errorEnvelope : Envelope :=
  { status := "error",
    message := "Error while handling request! Please check your request." }

/-- The envelope literal built at line 76 of server.py; note that the status
tag in the source reads sucess, not success. -/
def successEnvelope (result : String) : Envelope :=
  { status := "sucess", message := result }

/-- Exceptions that can escape the route handler. -/
inductive PyExc where
  | typeError
  | provider (e : String)
deriving Repr, DecidableEq

/-- Outcome of one invocation of the route handler: either a returned JSON
envelope or an uncaught Python exception. -/
inductive HandlerResult where
  | response (env : Envelope)
  | raised (e : PyExc)
deriving Repr, DecidableEq

/-- The f-string of line 74 of server.py. -/
def mkPrompt (d : PacketReq) : String :=
  "REQUEST CHECK: packet_size = " ++ pyStrOfGet d.packet_size ++
  ", packet_rate = " ++ pyStrOfGet d.packet_rate ++
  ", protocol_type = " ++ pyStrOfGet d.protocol_type ++
  ", connection_state = " ++ pyStrOfGet d.connection_state ++
  ", payload_pattern = " ++ pyStrOfGet d.payload_pattern

/-- Embedding of `handleAIRequest` (lines 57-61): forwards the request string
to the AI client and returns the completion text, or lets a provider error
propagate. `handleAIRequest` is a plain synchronous function: its successful
result is a plain str, not an awaitable. -/
def handleAIRequest (adapter : String → Except String String) (req : String) :
    Except String String :=
  adapter req

/-- Embedding of `handlePacket` (lines 63-76). Returns the handler outcome
together with the list of prompts passed to the AI adapter during the call.
If any of the five fields is missing or falsy the fixed error envelope is
returned with no adapter call. Otherwise the prompt is built and
`handleAIRequest` is called; a provider error raised inside it propagates
out of the handler. When the call returns a plain str, line 75 evaluates
`await` on that non-awaitable value, which raises TypeError, so line 76 is
never reached. -/
def handlePacket (adapter : String → Except String String) (data : PacketReq) :
    HandlerResult × List String :=
  if !pyGetTruthy data.packet_size || !pyGetTruthy data.packet_rate
      || !pyGetTruthy data.protocol_type || !pyGetTruthy data.connection_state
      || !pyGetTruthy data.payload_pattern then
    (HandlerResult.response errorEnvelope, [])
  else
    let aireq := mkPrompt data
    ((match handleAIRequest adapter aireq with
      | Except.error e => HandlerResult.raised (PyExc.provider e)
      | Except.ok _result => HandlerResult.raised PyExc.typeError),
     [aireq])

/-- Modelled from the spec: the web framework (Flask, not part of src/)
dispatches the route handler, forwards a returned envelope as a JSON
response, and maps an exception escaping the handler to its framework
default server-side error response without crashing the process. -/
inductive FrameworkResponse where
  | jsonBody (env : Envelope)
  | serverError
deriving Repr, DecidableEq

/-- Modelled from the spec: framework dispatch of one request. Totality of
this function expresses that an exception escaping the handler ends the
request with a server-side error response rather than crashing the process. -/
def frameworkDispatch : HandlerResult → FrameworkResponse
  | HandlerResult.response env => FrameworkResponse.jsonBody env
  | HandlerResult.raised _ => FrameworkResponse.serverError

/-! Module top-level bootstrap (server.py lines 1-55). Python resolves each
global name when the referencing statement executes; a reference to a name
bound neither by the imports nor by an earlier top-level statement raises
NameError and aborts module evaluation. -/

/-- One top-level statement: the global names it references when executed and
the global names it binds on success. -/
structure PyStmt where
  refs : List String
  binds : List String
deriving Repr, DecidableEq

/-- Names bound by the import block, lines 1-6 of server.py. -/
def importedNames : List String :=
  ["os", "threading", "sys", "random", "time", "csv", "logging",
   "load_dotenv", "Flask", "request", "jsonify",
   "JWTManager", "create_access_token", "jwt_required", "get_jwt_identity",
   "genai", "StringIO"]

/-- The top-level statements of server.py after the imports, in source order,
with the global names each references and binds. -/
def moduleBody : List PyStmt :=
  [ { refs := ["load_dotenv"], binds := [] },
    { refs := ["os"], binds := ["genai_api"] },
    { refs := ["logging", "sys"], binds := [] },
    { refs := ["logging"], binds := ["logger"] },
    { refs := [], binds := ["load_server_config"] },
    { refs := ["load_server_config"], binds := ["config"] },
    { refs := ["Flask"], binds := ["app"] },
    { refs := ["app", "os"], binds := [] },
    { refs := ["JWTManager", "app"], binds := ["jwt"] },
    { refs := ["SocketIO", "app"], binds := ["socketio"] },
    { refs := ["logger"], binds := [] },
    { refs := ["datetime", "timezone"], binds := ["server_start_time"] },
    { refs := ["genai", "genai_api"], binds := ["client"] },
    { refs := [], binds := ["handleAIRequest"] },
    { refs := ["app"], binds := ["handlePacket"] } ]

/-- Evaluate the top-level statements in order with the given environment of
bound global names; the first reference to an unbound name raises NameError
carrying that name. -/
def evalModule (env : List String) : List PyStmt → Except String Unit
  | [] => Except.ok ()
  | s :: rest =>
      match s.refs.find? (fun n => !env.contains n) with
      | some n => Except.error n
      | Option.none => evalModule (env ++ s.binds) rest

/-- Per-line update of the config as claim C6 words it: split the line at the
first colon, trim whitespace from both the key and the value, and assign when
the trimmed key is recognized. This follows the claims wording and is to be
compared with `processLine`, which follows the source. -/
def claimLineStep (cfg : ServerConfig) (line : String) : ServerConfig :=
  match splitFirstColon line with
  | some (k, v) =>
      let key := pyStrip k
      let value := pyStrip v
      if key = "backend_ip" then { cfg with backend_ip := value }
      else if key = "port" then { cfg with port := value }
      else if key = "X-Auth-Token" then { cfg with xAuthToken := value }
      else cfg
  | Option.none => cfg

/-- The request body of end-to-end scenario 1 of the spec: packet_size 100,
packet_rate 5, protocol_type TCP, connection_state ESTABLISHED,
payload_pattern random. -/
def exampleReq : PacketReq :=
  { packet_size := some (PyVal.int 100), packet_rate := some (PyVal.int 5),
    protocol_type := some (PyVal.str "TCP"),
    connection_state := some (PyVal.str "ESTABLISHED"),
    payload_pattern := some (PyVal.str "random") }

/-! Claim theorems. -/

/-- C1: whenever at least one of the five fields of the JSON body is missing
or falsy, `handlePacket` returns exactly the fixed validation-error envelope
with status error and the literal message, and the AI adapter is never
invoked (the list of adapter calls is empty). -/
theorem c1_validation_error (adapter : String → Except String String)
    (data : PacketReq)
    (h : pyGetTruthy data.packet_size = false ∨ pyGetTruthy data.packet_rate = false ∨
         pyGetTruthy data.protocol_type = false ∨ pyGetTruthy data.connection_state = false ∨
         pyGetTruthy data.payload_pattern = false) :
    handlePacket adapter data = (HandlerResult.response errorEnvelope, []) := by
  rcases h with h | h | h | h | h <;> simp [handlePacket, h]

/-- Witness for C1: end-to-end scenario 2 shape, a request missing
packet_size is answered with the error envelope and no adapter call. -/
theorem c1_witness :
    handlePacket (fun _ => Except.ok "completion")
      { packet_size := Option.none, packet_rate := some (PyVal.int 5),
        protocol_type := some (PyVal.str "TCP"),
        connection_state := some (PyVal.str "ESTABLISHED"),
        payload_pattern := some (PyVal.str "random") } =
      (HandlerResult.response errorEnvelope, []) :=
  c1_validation_error _ _ (Or.inl (by decide))

/-- C2: whenever all five fields are present and truthy, the one prompt
passed to the AI adapter is exactly the literal REQUEST CHECK template with
the five field values substituted. -/
theorem c2_prompt_template (adapter : String → Except String String)
    (data : PacketReq)
    (h1 : pyGetTruthy data.packet_size = true) (h2 : pyGetTruthy data.packet_rate = true)
    (h3 : pyGetTruthy data.protocol_type = true) (h4 : pyGetTruthy data.connection_state = true)
    (h5 : pyGetTruthy data.payload_pattern = true) :
    (handlePacket adapter data).2 =
      ["REQUEST CHECK: packet_size = " ++ pyStrOfGet data.packet_size ++
       ", packet_rate = " ++ pyStrOfGet data.packet_rate ++
       ", protocol_type = " ++ pyStrOfGet data.protocol_type ++
       ", connection_state = " ++ pyStrOfGet data.connection_state ++
       ", payload_pattern = " ++ pyStrOfGet data.payload_pattern] := by
  simp [handlePacket, mkPrompt, h1, h2, h3, h4, h5]

/-- Witness for C2 at the request of end-to-end scenario 1. -/
theorem c2_witness :
    (handlePacket (fun _ => Except.ok "ok") exampleReq).2 =
      ["REQUEST CHECK: packet_size = 100, packet_rate = 5, protocol_type = TCP, connection_state = ESTABLISHED, payload_pattern = random"] :=
  (c2_prompt_template (fun _ => Except.ok "ok") exampleReq
    (by decide) (by decide) (by decide) (by decide) (by decide)).trans (by decide)

/-- C3, recorded as a code bug: at a fully valid request whose adapter call
returns a completion text, the handler does not return a success envelope at
all; line 75 awaits the plain string returned by `handleAIRequest`, raising
TypeError, and the envelope literal of the unreachable line 76 carries the
misspelled status tag sucess rather than success. -/
theorem c3_success_envelope_bug :
    handlePacket (fun _ => Except.ok "AI verdict") exampleReq =
      (HandlerResult.raised PyExc.typeError, [mkPrompt exampleReq]) ∧
    successEnvelope "AI verdict" = { status := "sucess", message := "AI verdict" } ∧
    "sucess" ≠ "success" :=
  ⟨by decide, rfl, by decide⟩

/-- C4: awaiting the plain string returned by the synchronous
`handleAIRequest` raises TypeError, so for every valid request with a
successful adapter call the handler raises TypeError, and no invocation of
the handler whatsoever returns an envelope with the success-path status. -/
theorem c4_success_unreachable :
    (∀ (adapter : String → Except String String) (data : PacketReq) (t : String),
        pyGetTruthy data.packet_size = true → pyGetTruthy data.packet_rate = true →
        pyGetTruthy data.protocol_type = true → pyGetTruthy data.connection_state = true →
        pyGetTruthy data.payload_pattern = true →
        adapter (mkPrompt data) = Except.ok t →
        handlePacket adapter data = (HandlerResult.raised PyExc.typeError, [mkPrompt data])) ∧
    (∀ (adapter : String → Except String String) (data : PacketReq) (s : String),
        (handlePacket adapter data).1 ≠ HandlerResult.response (successEnvelope s)) := by
  constructor
  · intro adapter data t h1 h2 h3 h4 h5 hok
    simp [handlePacket, handleAIRequest, h1, h2, h3, h4, h5, hok]
  · intro adapter data s
    by_cases hc : (!pyGetTruthy data.packet_size || !pyGetTruthy data.packet_rate
        || !pyGetTruthy data.protocol_type || !pyGetTruthy data.connection_state
        || !pyGetTruthy data.payload_pattern) = true
    · simp [handlePacket, hc, errorEnvelope, successEnvelope]
    · simp [handlePacket, hc, handleAIRequest]
      cases adapter (mkPrompt data) <;> simp

/-- Witness for C4 at the request of end-to-end scenario 1 with an adapter
that returns the text fine. -/
theorem c4_witness :
    handlePacket (fun _ => Except.ok "fine") exampleReq =
      (HandlerResult.raised PyExc.typeError, [mkPrompt exampleReq]) ∧
    (handlePacket (fun _ => Except.ok "fine") exampleReq).1 ≠
      HandlerResult.response (successEnvelope "fine") :=
  ⟨c4_success_unreachable.1 _ exampleReq "fine" (by decide) (by decide) (by decide)
      (by decide) (by decide) rfl,
    c4_success_unreachable.2 _ exampleReq "fine"⟩

/-- C5 counterexample: when the read raises after the line
backend_ip:10.0.0.5 has already been processed, the except block catches the
exception but the loader returns the partially updated configuration, not
the default one, refuting the claim that every caught failure yields the
default configuration. -/
theorem c5_counterexample :
    (load_server_config (FsState.lines ["backend_ip:10.0.0.5"] true)).1 ≠ defaultConfig ∧
    (load_server_config (FsState.lines ["backend_ip:10.0.0.5"] true)).1 =
      { backend_ip := "10.0.0.5", port := "3107", xAuthToken := "default" } := by
  constructor <;> decide

/-- C5 amended: every I/O or parsing exception is caught inside
`load_server_config` and the loader returns the configuration accumulated so
far, namely the defaults overridden by the recognized lines read before the
failure; when the failure happens at open, before any line is read, this is
exactly the default configuration. An error line is logged in both cases. -/
theorem c5_exception_caught :
    (∀ ls : List String,
        load_server_config (FsState.lines ls true) =
          (ls.foldl processLine defaultConfig, [LogLevel.error])) ∧
    load_server_config FsState.failOpen = (defaultConfig, [LogLevel.error]) :=
  ⟨fun _ => rfl, rfl⟩

/-- C6 counterexample: on the line with a space before the colon, the
claimed semantics, which trims the key after the split, assigns 10.0.0.5 to
backend_ip, but the code strips only the whole line and compares the key
untrimmed, so the trailing space in the key prevents the match and the
loader keeps the default backend_ip. -/
theorem c6_counterexample :
    claimLineStep defaultConfig "backend_ip : 10.0.0.5" =
      { backend_ip := "10.0.0.5", port := "3107", xAuthToken := "default" } ∧
    (load_server_config (FsState.lines ["backend_ip : 10.0.0.5"] false)).1 =
      defaultConfig := by
  constructor <;> decide

/-- C6 amended: for every line containing a colon, the code strips the whole
line, splits it at the first colon into key and value, and assigns the
trimmed value when the key, exactly as produced by the split and not trimmed
again, is one of the three recognized names; lines without a colon and lines
with unrecognized keys leave the config unchanged; and a file containing
only the line backend_ip: 10.0.0.5, with no whitespace before the colon,
yields backend_ip 10.0.0.5 with the other two fields at their defaults. -/
theorem c6_line_semantics :
    (∀ (cfg : ServerConfig) (line key value : String),
        line.data.contains ':' = true →
        splitFirstColon (pyStrip line) = some (key, value) →
        processLine cfg line =
          (if key = "backend_ip" then { cfg with backend_ip := pyStrip value }
           else if key = "port" then { cfg with port := pyStrip value }
           else if key = "X-Auth-Token" then { cfg with xAuthToken := pyStrip value }
           else cfg)) ∧
    (∀ (cfg : ServerConfig) (line : String),
        line.data.contains ':' = false → processLine cfg line = cfg) ∧
    (load_server_config (FsState.lines ["backend_ip: 10.0.0.5"] false)).1 =
      { backend_ip := "10.0.0.5", port := "3107", xAuthToken := "default" } := by
  refine ⟨?_, ?_, by decide⟩
  · intro cfg line key value hcol hsplit
    have hmem : ':' ∈ line.data := by simpa using hcol
    simp [processLine, hsplit, hmem]
  · intro cfg line hcol
    have hmem : ':' ∉ line.data := by simpa using hcol
    simp [processLine, hmem]

/-- Witness for the amended C6 on a recognized key, an unrecognized split
and a colon-free line. -/
theorem c6_witness :
    processLine defaultConfig "port: 8080" =
      { backend_ip := "192.168.1.1", port := "8080", xAuthToken := "default" } ∧
    processLine defaultConfig "no colon here" = defaultConfig := by
  constructor
  · rw [c6_line_semantics.1 defaultConfig "port: 8080" "port" " 8080" (by decide) (by decide)]
    decide
  · exact c6_line_semantics.2.1 defaultConfig "no colon here" (by decide)

/-- C7: when the config file does not exist, the loader emits one warning
log line and returns exactly the default configuration with backend_ip
192.168.1.1, port 3107 and auth token default. -/
theorem c7_no_file_defaults :
    load_server_config FsState.noFile = (defaultConfig, [LogLevel.warning]) ∧
    defaultConfig = { backend_ip := "192.168.1.1", port := "3107", xAuthToken := "default" } :=
  ⟨rfl, rfl⟩

/-- C8: for every request passing validation whose adapter call raises a
provider error, neither `handlePacket` nor `handleAIRequest` catches it: the
handler terminates with that exception uncaught, and the framework dispatch
turns it into its default server-side error response while the process keeps
serving. -/
theorem c8_provider_error_propagates (adapter : String → Except String String)
    (data : PacketReq) (e : String)
    (h1 : pyGetTruthy data.packet_size = true) (h2 : pyGetTruthy data.packet_rate = true)
    (h3 : pyGetTruthy data.protocol_type = true) (h4 : pyGetTruthy data.connection_state = true)
    (h5 : pyGetTruthy data.payload_pattern = true)
    (herr : adapter (mkPrompt data) = Except.error e) :
    handlePacket adapter data = (HandlerResult.raised (PyExc.provider e), [mkPrompt data]) ∧
    frameworkDispatch (handlePacket adapter data).1 = FrameworkResponse.serverError := by
  have hmain : handlePacket adapter data =
      (HandlerResult.raised (PyExc.provider e), [mkPrompt data]) := by
    simp [handlePacket, handleAIRequest, h1, h2, h3, h4, h5, herr]
  refine ⟨hmain, ?_⟩
  rw [hmain]
  rfl

/-- Witness for C8 at the request of end-to-end scenario 1 with an adapter
that raises. -/
theorem c8_witness :
    handlePacket (fun _ => Except.error "provider down") exampleReq =
      (HandlerResult.raised (PyExc.provider "provider down"), [mkPrompt exampleReq]) ∧
    frameworkDispatch (handlePacket (fun _ => Except.error "provider down") exampleReq).1 =
      FrameworkResponse.serverError :=
  c8_provider_error_propagates _ exampleReq "provider down" (by decide) (by decide)
    (by decide) (by decide) (by decide) rfl

/-- C9: the loader is a deterministic function of the filesystem state, so
two successive invocations against the same file contents, or the same
absence of the file, return identical configuration values and logs. -/
theorem c9_idempotent (fs : FsState) :
    load_server_config fs = load_server_config fs := rfl

/-- C10: evaluating the module top level always raises NameError: the
statement at line 50 references the unimported name of the socket library
class and halts evaluation there, and the later line 53 references datetime,
also unimported, so the listener never starts. -/
theorem c10_bootstrap_name_error :
    evalModule importedNames moduleBody = Except.error "SocketIO" ∧
    importedNames.contains "SocketIO" = false ∧
    importedNames.contains "datetime" = false :=
  ⟨rfl, by decide, by decide⟩

end SentinelProxy
